import Mathlib

/-!
Shallow embedding of the Hotel-Booking Express server (src/server.js and
src/unnamed/part_000): the booking store backed by the sqlite `bookings`
table, the `POST /bookings` handler (validation, pending insert, PayPal
token and order calls), the `POST /payments/webhook/paypal` confirmation
handler, the `POST /notify/:bookingId` email handler, the
`POST /notify-sms/:bookingId` SMS handler, and the `GET /hotels`
listing handler. Machine-level I/O (HTTP transport, sqlite errors) is out
of scope; external responses are passed in as explicit environment values.
-/

/-- Booking status column: the source only ever writes "pending" (at insert)
or "confirmed" (in the webhook handler). -/
inductive BookingStatus
  | pending
  | confirmed
deriving DecidableEq, Repr

/-- A JavaScript number, idealized: NaN or an exact rational value. -/
inductive JSNum
  | nan
  | val (q : ℚ)
deriving DecidableEq, Repr

/-- A JSON request-body value as the handlers inspect it:
a string, a number, or absent (`undefined`). -/
inductive JSVal
  | str (s : String)
  | num (n : JSNum)
  | undef
deriving DecidableEq, Repr

/-- JavaScript falsiness of a body value (`!v`): `undefined`, the empty
string, `0` and `NaN` are falsy; every other string or number is truthy. -/
def JSVal.falsy : JSVal → Bool
  | .str s => decide (s = "")
  | .num .nan => true
  | .num (.val q) => decide (q = 0)
  | .undef => true

/-- Falsiness of an optional string field (`!v` on a field that is either
absent or a string): absent and the empty string are falsy. -/
def optStrFalsy : Option String → Bool
  | none => true
  | some s => decide (s = "")

/-- The JavaScript idiom `v || d` on an optional string field: the default
replaces an absent value or the empty string. -/
def jsOrStr (v : Option String) (d : String) : String :=
  match v with
  | none => d
  | some s => if s = "" then d else s

/-- Value of a nonempty digit run, most significant first;
`none` when the run is empty or holds a non-digit. -/
def digitsVal (cs : List Char) : Option ℕ :=
  if cs = [] then none
  else
    cs.foldl
      (fun acc c =>
        match acc with
        | none => none
        | some n => if c.isDigit then some (n * 10 + (c.toNat - 48)) else none)
      (some 0)

/-- `Number(s)` on the strings this server receives: an optional sign
followed by a decimal literal parses to its value, the empty string parses
to 0, and anything else (such as "abc") is NaN. -/
def strToNumber (s : String) : JSNum :=
  if s = "" then .val 0
  else
    let signed : Bool × List Char :=
      match s.data with
      | '-' :: rest => (true, rest)
      | '+' :: rest => (false, rest)
      | _ => (false, s.data)
    let intPart := signed.2.takeWhile Char.isDigit
    let rest := signed.2.dropWhile Char.isDigit
    let mag : Option ℚ :=
      match rest with
      | [] => (digitsVal intPart).map (fun n => (n : ℚ))
      | '.' :: frac =>
        if frac.all Char.isDigit = true ∧ (intPart ≠ [] ∨ frac ≠ []) then
          some ((((digitsVal intPart).getD 0 : ℕ) : ℚ)
            + (((digitsVal frac).getD 0 : ℕ) : ℚ) / (10 : ℚ) ^ frac.length)
        else none
      | _ => none
    match mag with
    | none => .nan
    | some q => .val (if signed.1 then -q else q)

/-- `Number(v)` on a body value. -/
def JSVal.toNumber : JSVal → JSNum
  | .str s => strToNumber s
  | .num n => n
  | .undef => .nan

/-- One row of the sqlite `bookings` table. -/
structure Booking where
  id : ℕ
  user_id : ℕ
  hotel_name : String
  checkin : String
  checkout : String
  guests : JSNum
  total_amount : JSNum
  status : BookingStatus
deriving DecidableEq, Repr

/-- The booking store: the rows of the `bookings` table together with the
next AUTOINCREMENT id. -/
structure Store where
  rows : List Booking
  nextId : ℕ
deriving DecidableEq, Repr

/-- The store right after `CREATE TABLE IF NOT EXISTS`: no rows,
AUTOINCREMENT ids start at 1. -/
def initStore : Store := ⟨[], 1⟩

/-- `SELECT * FROM bookings WHERE id = ?`: the first row with the given id. -/
def getBooking (st : Store) (i : ℕ) : Option Booking :=
  st.rows.find? (fun b => b.id == i)

/-- The status column of the row with the given id, if any. -/
def Store.statusOf (st : Store) (i : ℕ) : Option BookingStatus :=
  (getBooking st i).map Booking.status

/-- The ids present in the store. -/
def Store.ids (st : Store) : List ℕ := st.rows.map Booking.id

/-- The JSON body of `POST /bookings` as destructured by the handler. -/
structure CreateBody where
  hotelName : Option String
  total : JSVal
  checkin : Option String
  checkout : Option String
  guests : Option JSNum
  email : Option String
deriving DecidableEq, Repr

/-- One entry of `orderData.links` in the PayPal order response. -/
structure PayPalLink where
  rel : String
  href : String
deriving DecidableEq, Repr

/-- The external PayPal responses the `POST /bookings` handler consumes:
`authData.access_token` from the token call and `orderData.links` from the
order call (absent list models a response without a `links` field). -/
structure PayPalEnv where
  accessToken : Option String
  orderLinks : Option (List PayPalLink)
deriving DecidableEq, Repr

/-- Observable actions of the `POST /bookings` handler, in program order:
the sqlite INSERT, the PayPal token request, and the PayPal order creation
(carrying the booking id embedded in the order's return URL). -/
inductive Event
  | insertBooking (id : ℕ)
  | paypalAuthCall
  | paypalOrderCall (bookingId : ℕ)
deriving DecidableEq, Repr

/-- Whether an event is a call to the payment provider. -/
def Event.isPaymentCall : Event → Bool
  | .insertBooking _ => false
  | .paypalAuthCall => true
  | .paypalOrderCall _ => true

/-- Response of the `POST /bookings` handler: 400 on failed validation,
500 from the catch block, or the `{bookingId, approveUrl}` success body. -/
inductive CreateResp
  | badRequest (error : String)
  | serverError (error : String)
  | ok (bookingId : ℕ) (approveUrl : String)
deriving DecidableEq, Repr

/-- `orderData.links?.find((l) => l.rel === "approve")?.href`. -/
def findApproveLink (links : Option (List PayPalLink)) : Option String :=
  (links.bind (fun ls => ls.find? (fun l => l.rel == "approve"))).map PayPalLink.href

/-- The JavaScript idiom `guests || 1`: absent, NaN and 0 become 1. -/
def guestsOrOne (g : Option JSNum) : JSNum :=
  match g with
  | some (.val q) => if q = 0 then .val 1 else .val q
  | _ => .val 1

/-- The row inserted by the `POST /bookings` handler:
`[1, hotelName, checkin || "N/A", checkout || "N/A", guests || 1, total, "pending"]`. -/
def mkBooking (st : Store) (body : CreateBody) : Booking :=
  { id := st.nextId
    user_id := 1
    hotel_name := body.hotelName.getD ""
    checkin := jsOrStr body.checkin "N/A"
    checkout := jsOrStr body.checkout "N/A"
    guests := guestsOrOne body.guests
    total_amount := body.total.toNumber
    status := .pending }

/-- The `POST /bookings` handler: validates presence of `hotelName` and
`total` (400, no side effect), INSERTs a pending row, requests a PayPal
token (missing/empty `access_token` throws, caught as 500), creates the
PayPal order, extracts the "approve" link (absent throws, caught as 500),
and on success answers `{bookingId, approveUrl}`. Returns the store after
the handler, the HTTP response, and the trace of observable actions. -/
def createBooking (env : PayPalEnv) (st : Store) (body : CreateBody) :
    Store × CreateResp × List Event :=
  if optStrFalsy body.hotelName || body.total.falsy then
    (st, .badRequest "Missing required fields", [])
  else
    let b := mkBooking st body
    let st' : Store := ⟨st.rows ++ [b], st.nextId + 1⟩
    if optStrFalsy env.accessToken then
      (st', .serverError "Failed to create booking",
        [.insertBooking st.nextId, .paypalAuthCall])
    else
      match findApproveLink env.orderLinks with
      | none =>
        (st', .serverError "Failed to create booking",
          [.insertBooking st.nextId, .paypalAuthCall, .paypalOrderCall st.nextId])
      | some url =>
        (st', .ok st.nextId url,
          [.insertBooking st.nextId, .paypalAuthCall, .paypalOrderCall st.nextId])

/-- Response of the webhook handler: 400 when `bookingId` is falsy,
otherwise the success body (the source has no not-found branch). -/
inductive ConfirmResp
  | badRequest (error : String)
  | ok
deriving DecidableEq, Repr

/-- Row transformation of `UPDATE bookings SET status = 'confirmed' WHERE id = ?`. -/
def confirmFn (bid : ℕ) (b : Booking) : Booking :=
  if b.id = bid then { b with status := .confirmed } else b

/-- The `POST /payments/webhook/paypal` handler: 400 when `bookingId` is
falsy (absent or 0), otherwise runs the UPDATE (a no-op on rows whose id
differs, including when no row matches) and answers success. -/
def confirmBooking (st : Store) (bookingId : Option ℕ) : Store × ConfirmResp :=
  match bookingId with
  | none => (st, .badRequest "Missing bookingId")
  | some bid =>
    if bid = 0 then (st, .badRequest "Missing bookingId")
    else (⟨st.rows.map (confirmFn bid), st.nextId⟩, .ok)

/-- Whether the external delivery provider (Resend / Twilio) accepted the
message or threw. -/
inductive DeliveryOutcome
  | delivered
  | failed
deriving DecidableEq, Repr

/-- Response of the notify handlers. -/
inductive NotifyResp
  | badRequest (error : String)
  | notFound (error : String)
  | ok (message : String)
  | serverError (error : String)
deriving DecidableEq, Repr

/-- Rendering of the status column in a template literal. -/
def statusToString : BookingStatus → String
  | .pending => "pending"
  | .confirmed => "confirmed"

/-- Rendering of a number in a template literal; exact for NaN and
integers (the values this model stores), with rationals printed via their
canonical form. -/
def jsNumToString : JSNum → String
  | .nan => "NaN"
  | .val q => if q.den = 1 then toString q.num else toString q

/-- The email the `POST /notify/:bookingId` handler hands to
`resend.emails.send` (the `from` field is a constant in the source). -/
structure EmailSend where
  toAddr : String
  subject : String
  html : String
deriving DecidableEq, Repr

/-- The html template literal of the `POST /notify/:bookingId` handler,
verbatim. -/
def renderEmailHtml (b : Booking) : String :=
  "\n      <h2>Booking Confirmed!</h2>\n      <p><strong>Hotel:</strong> " ++ b.hotel_name
    ++ "</p>\n      <p><strong>Check-in:</strong> " ++ b.checkin
    ++ "</p>\n      <p><strong>Check-out:</strong> " ++ b.checkout
    ++ "</p>\n      <p><strong>Guests:</strong> " ++ jsNumToString b.guests
    ++ "</p>\n      <p><strong>Total:</strong> $" ++ jsNumToString b.total_amount
    ++ "</p>\n      <p>Status: " ++ statusToString b.status
    ++ "</p>\n    "

/-- The `POST /notify/:bookingId` handler (email via Resend): looks the
booking up (404 when absent), renders subject and html from the stored row,
calls the provider, and answers 200 or 500 by the delivery outcome. It
performs no store write. -/
def notifyEmail (st : Store) (bid : ℕ) (email : String) (oc : DeliveryOutcome) :
    Store × NotifyResp × Option EmailSend :=
  match getBooking st bid with
  | none => (st, .notFound "Booking not found", none)
  | some b =>
    let call : EmailSend :=
      ⟨email, "Booking Confirmed: " ++ b.hotel_name, renderEmailHtml b⟩
    match oc with
    | .delivered => (st, .ok "Email sent", some call)
    | .failed => (st, .serverError "Failed to send email", some call)

/-- The SMS the `POST /notify-sms/:bookingId` handler hands to
`twilioClient.messages.create`. -/
structure SmsSend where
  smsBody : String
  toPhone : String
deriving DecidableEq, Repr

/-- The message template literal of the `POST /notify-sms/:bookingId`
handler, verbatim. -/
def renderSmsText (b : Booking) : String :=
  "\nBooking confirmed!\nHotel: " ++ b.hotel_name
    ++ "\nCheck-in: " ++ b.checkin
    ++ "\nCheck-out: " ++ b.checkout
    ++ "\nGuests: " ++ jsNumToString b.guests
    ++ "\nTotal: $" ++ jsNumToString b.total_amount
    ++ "\n"

/-- The `POST /notify-sms/:bookingId` handler (SMS via Twilio): 400 when
`phone` is falsy, 404 when the booking is absent, otherwise renders the
message from the stored row, calls the provider, and answers 200 or 500 by
the delivery outcome. It performs no store write. -/
def notifySms (st : Store) (bid : ℕ) (phone : Option String) (oc : DeliveryOutcome) :
    Store × NotifyResp × Option SmsSend :=
  if optStrFalsy phone then (st, .badRequest "Missing phone number", none)
  else
    match getBooking st bid with
    | none => (st, .notFound "Booking not found", none)
    | some b =>
      match oc with
      | .delivered =>
        (st, .ok "SMS sent successfully", some ⟨renderSmsText b, phone.getD ""⟩)
      | .failed =>
        (st, .serverError "Failed to send SMS", some ⟨renderSmsText b, phone.getD ""⟩)

/-- Scan past the first `'>'` of the list, returning what follows it;
`none` when the list holds no `'>'`. -/
def dropThroughGt : List Char → Option (List Char)
  | [] => none
  | c :: cs => if c = '>' then some cs else dropThroughGt cs

theorem dropThroughGt_length :
    ∀ (l out : List Char), dropThroughGt l = some out → out.length < l.length := by
  intro l
  induction l with
  | nil => intro out h; simp [dropThroughGt] at h
  | cons c cs ih =>
    intro out h
    by_cases hc : c = '>'
    · simp [dropThroughGt, hc] at h
      subst h
      simp
    · simp [dropThroughGt, hc] at h
      exact Nat.lt_succ_of_lt (ih out h)

/-- The global replacement `.replace(/<[^>]+>/g, "")` on the character
list: a `'<'` followed by at least one non-`'>'` character and then a
`'>'` is removed together with everything between; other characters are
kept. -/
def stripTagsL : List Char → List Char
  | [] => []
  | c :: rest =>
    if c = '<' then
      match rest with
      | [] => ['<']
      | c2 :: cs2 =>
        if c2 = '>' then '<' :: stripTagsL (c2 :: cs2)
        else
          match h : dropThroughGt (c2 :: cs2) with
          | some after => stripTagsL after
          | none => '<' :: stripTagsL (c2 :: cs2)
    else c :: stripTagsL rest
termination_by l => l.length
decreasing_by
  · simp
  · exact Nat.lt_succ_of_lt (dropThroughGt_length _ _ h)
  · simp
  · simp

/-- `hotelDescription.replace(/<[^>]+>/g, "")` lifted to strings. -/
def stripTags (s : String) : String := ⟨stripTagsL s.data⟩

/-- The JavaScript idiom `a || b` on two optional string fields
(`h.main_photo || h.thumbnail`). -/
def jsOrOpt (a b : Option String) : Option String :=
  if optStrFalsy a then b else a

/-- One record of the upstream LiteAPI payload, restricted to the fields
the handler projects. -/
structure UpstreamHotel where
  uid : Option String
  name : Option String
  hotelDescription : Option String
  address : Option String
  city : Option String
  stars : Option JSNum
  rating : Option JSNum
  main_photo : Option String
  thumbnail : Option String
deriving DecidableEq, Repr

/-- The normalized listing shape produced by the `GET /hotels` handler. -/
structure NormalizedListing where
  uid : Option String
  name : Option String
  description : Option String
  address : Option String
  city : Option String
  stars : Option JSNum
  rating : Option JSNum
  image : Option String
deriving DecidableEq, Repr

/-- The per-record projection of the `GET /hotels` handler: copy the plain
fields, strip markup from `hotelDescription` when present (optional
chaining), take `main_photo || thumbnail` as the image. -/
def normalizeHotel (h : UpstreamHotel) : NormalizedListing :=
  { uid := h.uid
    name := h.name
    description := h.hotelDescription.map stripTags
    address := h.address
    city := h.city
    stars := h.stars
    rating := h.rating
    image := jsOrOpt h.main_photo h.thumbnail }

/-- The parsed upstream response body: `json.data` may be absent
(`json.data || []`). -/
structure UpstreamPayload where
  data : Option (List UpstreamHotel)
deriving DecidableEq, Repr

/-- Response body of `GET /hotels`. -/
structure HotelsResp where
  data : List NormalizedListing
  total : ℕ
deriving DecidableEq, Repr

/-- `Array.prototype.slice(start, stop)` for the non-negative indices this
handler produces. -/
def jsSlice {α : Type} (l : List α) (start stop : ℕ) : List α :=
  (l.drop start).take (stop - start)

/-- The `GET /hotels` handler on an already-parsed upstream payload and
parsed `page`/`limit` query values: normalize the full set, slice at
`[(page-1)*limit, (page-1)*limit + limit)`, and report the full unsliced
count as `total`. -/
def listHotels (j : UpstreamPayload) (page limit : ℕ) : HotelsResp :=
  { data := jsSlice ((j.data.getD []).map normalizeHotel)
      ((page - 1) * limit) ((page - 1) * limit + limit)
    total := ((j.data.getD []).map normalizeHotel).length }

/-- One incoming request that can touch the booking store. -/
inductive Op
  | create (env : PayPalEnv) (body : CreateBody)
  | confirm (bookingId : Option ℕ)
  | notifyEmailOp (bid : ℕ) (email : String) (oc : DeliveryOutcome)
  | notifySmsOp (bid : ℕ) (phone : Option String) (oc : DeliveryOutcome)

/-- The store after handling one request. -/
def step (st : Store) : Op → Store
  | .create env body => (createBooking env st body).1
  | .confirm bid => (confirmBooking st bid).1
  | .notifyEmailOp b e oc => (notifyEmail st b e oc).1
  | .notifySmsOp b p oc => (notifySms st b p oc).1

/-- The store after a sequence of requests against a fresh database. -/
def run (ops : List Op) : Store := ops.foldl step initStore

/-- A concrete pending booking, used to instantiate the theorems below. -/
def oneRowBooking : Booking :=
  ⟨1, 1, "Grand Hotel", "N/A", "N/A", JSNum.val 2, JSNum.val 100, .pending⟩

/-- A concrete store holding only `oneRowBooking`. -/
def oneRowStore : Store := ⟨[oneRowBooking], 2⟩

theorem confirmFn_id (bid : ℕ) (b : Booking) : (confirmFn bid b).id = b.id := by
  unfold confirmFn
  split <;> rfl

theorem confirmFn_idem (bid : ℕ) (b : Booking) :
    confirmFn bid (confirmFn bid b) = confirmFn bid b := by
  unfold confirmFn
  by_cases h : b.id = bid <;> simp [h]

theorem statusOf_confirm_of_mem (bid : ℕ) (rows : List Booking)
    (h : bid ∈ rows.map Booking.id) :
    ((rows.map (confirmFn bid)).find? (fun b => b.id == bid)).map Booking.status
      = some BookingStatus.confirmed := by
  induction rows with
  | nil => simp at h
  | cons r rs ih =>
    simp only [List.map_cons]
    by_cases hr : r.id = bid
    · rw [List.find?_cons_of_pos]
      · simp [confirmFn, hr]
      · simp [confirmFn_id, hr]
    · rw [List.find?_cons_of_neg]
      · apply ih
        simp only [List.map_cons, List.mem_cons] at h
        rcases h with h | h
        · exact absurd h.symm hr
        · exact h
      · simp [confirmFn_id, hr]

theorem notifyEmail_store (st : Store) (bid : ℕ) (email : String)
    (oc : DeliveryOutcome) : (notifyEmail st bid email oc).1 = st := by
  unfold notifyEmail
  cases getBooking st bid with
  | none => rfl
  | some b => cases oc <;> rfl

theorem notifySms_store (st : Store) (bid : ℕ) (phone : Option String)
    (oc : DeliveryOutcome) : (notifySms st bid phone oc).1 = st := by
  unfold notifySms
  by_cases hp : optStrFalsy phone
  · simp [hp]
  · simp only [hp, Bool.false_eq_true, if_false]
    cases getBooking st bid with
    | none => rfl
    | some b => cases oc <;> rfl

/-- C9: the notification handlers never modify the booking store — for
every booking id, contact, and delivery outcome (success or delivery
failure), the store after the email handler and after the SMS handler is
identical to the store before. -/
theorem notify_never_modifies_store (st : Store) (bid bid' : ℕ) (email : String)
    (phone : Option String) (oc oc' : DeliveryOutcome) :
    (notifyEmail st bid email oc).1 = st ∧ (notifySms st bid' phone oc').1 = st :=
  ⟨notifyEmail_store st bid email oc, notifySms_store st bid' phone oc'⟩

/-- C2 (counterexample): on a store holding only booking 1, the
confirmation webhook called with the unknown bookingId 2 answers the
success response, not a not-found result; the store is unchanged. -/
theorem confirm_unknown_id_cex :
    getBooking oneRowStore 2 = none
    ∧ confirmBooking oneRowStore (some 2) = (oneRowStore, ConfirmResp.ok) := by
  constructor
  · rfl
  · rfl

/-- C2 (amended): the confirmation webhook called with a truthy bookingId
that matches no stored booking answers the success response (the source
has no not-found branch), and the store is unchanged: no booking row is
created. -/
theorem confirm_unknown_id_returns_success (st : Store) (bid : ℕ)
    (h0 : bid ≠ 0) (h : bid ∉ st.ids) :
    confirmBooking st (some bid) = (st, ConfirmResp.ok) := by
  have hrows : st.rows.map (confirmFn bid) = st.rows := by
    have hpt : ∀ b ∈ st.rows, confirmFn bid b = id b := by
      intro b hb
      have hne : b.id ≠ bid := by
        intro he
        exact h (he ▸ List.mem_map_of_mem Booking.id hb)
      simp [confirmFn, hne]
    exact (List.map_congr_left hpt).trans (List.map_id _)
  unfold confirmBooking
  simp [h0, hrows]

theorem confirm_unknown_id_returns_success_witness :
    (2 ≠ 0) ∧ (2 ∉ oneRowStore.ids)
    ∧ confirmBooking oneRowStore (some 2) = (oneRowStore, ConfirmResp.ok) :=
  ⟨by decide, by decide,
    confirm_unknown_id_returns_success oneRowStore 2 (by decide) (by decide)⟩

/-- C5: the confirmation webhook is idempotent — for every existing
(hence truthy) bookingId, applying it twice yields the same store as
applying it once, and after one application the booking's status is
confirmed. -/
theorem confirm_idempotent (st : Store) (bid : ℕ) (h0 : bid ≠ 0)
    (h : bid ∈ st.ids) :
    (confirmBooking (confirmBooking st (some bid)).1 (some bid)).1
      = (confirmBooking st (some bid)).1
    ∧ (confirmBooking st (some bid)).1.statusOf bid = some BookingStatus.confirmed := by
  constructor
  · unfold confirmBooking
    simp only [h0, if_false, ite_false, if_neg h0]
    have : (st.rows.map (confirmFn bid)).map (confirmFn bid)
        = st.rows.map (confirmFn bid) := by
      rw [List.map_map]
      exact List.map_congr_left (fun b _ => confirmFn_idem bid b)
    simp [this]
  · unfold confirmBooking
    simp only [h0, if_false, ite_false, if_neg h0]
    unfold Store.statusOf getBooking
    exact statusOf_confirm_of_mem bid st.rows h

theorem confirm_idempotent_witness :
    (1 ≠ 0) ∧ 1 ∈ oneRowStore.ids
    ∧ ((confirmBooking (confirmBooking oneRowStore (some 1)).1 (some 1)).1
        = (confirmBooking oneRowStore (some 1)).1
      ∧ (confirmBooking oneRowStore (some 1)).1.statusOf 1
        = some BookingStatus.confirmed) :=
  ⟨by decide, by decide, confirm_idempotent oneRowStore 1 (by decide) (by decide)⟩

/-- A PayPal environment whose token response carries no access token. -/
def noTokenEnv : PayPalEnv := ⟨none, none⟩

/-- A PayPal environment where both provider calls succeed. -/
def okEnv : PayPalEnv :=
  ⟨some "token123",
    some [⟨"self", "https://api.paypal.test/self"⟩,
      ⟨"approve", "https://api.paypal.test/approve"⟩]⟩

/-- A fully valid creation request body. -/
def validBody : CreateBody :=
  ⟨some "Grand Hotel", .str "120", some "2024-01-01", some "2024-01-02",
    some (JSNum.val 2), some "guest@example.com"⟩

/-- A creation request whose total is the non-numeric string "abc". -/
def abcTotalBody : CreateBody :=
  ⟨some "Grand Hotel", .str "abc", none, none, none, none⟩

/-- A creation request with no hotelName. -/
def noHotelBody : CreateBody :=
  ⟨none, .str "120", none, none, none, none⟩

/-- A valid creation request whose optional fields are present but falsy:
guests 0 and an empty checkin. -/
def falsyFieldsBody : CreateBody :=
  ⟨some "Grand Hotel", .str "120", some "", none, some (JSNum.val 0), none⟩

theorem createBooking_store_valid (env : PayPalEnv) (st : Store) (body : CreateBody)
    (hn : optStrFalsy body.hotelName = false) (ht : body.total.falsy = false) :
    (createBooking env st body).1 = ⟨st.rows ++ [mkBooking st body], st.nextId + 1⟩ := by
  unfold createBooking
  simp only [hn, ht, Bool.or_self, Bool.false_eq_true, if_false]
  split
  · rfl
  · split <;> rfl

theorem createBooking_ids_valid (env : PayPalEnv) (st : Store) (body : CreateBody)
    (hn : optStrFalsy body.hotelName = false) (ht : body.total.falsy = false) :
    (createBooking env st body).1.ids = st.ids ++ [st.nextId] := by
  rw [createBooking_store_valid env st body hn ht]
  simp [Store.ids, mkBooking]

theorem createBooking_trace_valid (env : PayPalEnv) (st : Store) (body : CreateBody)
    (hn : optStrFalsy body.hotelName = false) (ht : body.total.falsy = false) :
    (createBooking env st body).2.2
        = [.insertBooking st.nextId, .paypalAuthCall]
    ∨ (createBooking env st body).2.2
        = [.insertBooking st.nextId, .paypalAuthCall, .paypalOrderCall st.nextId] := by
  unfold createBooking
  simp only [hn, ht, Bool.or_self, Bool.false_eq_true, if_false]
  split
  · exact Or.inl rfl
  · split
    · exact Or.inr rfl
    · exact Or.inr rfl

/-- C1: for every valid creation request, the handler's first observable
action is the INSERT of the pending row (so it happens before either
payment-provider call in the trace), the store gains exactly that pending
row with id `nextId`, and the booking id embedded in the order's return
URL, as well as the one answered in the success body, names a row that
exists in the resulting store. -/
theorem create_persists_pending_before_payment (env : PayPalEnv) (st : Store)
    (body : CreateBody) (hn : optStrFalsy body.hotelName = false)
    (ht : body.total.falsy = false) :
    (createBooking env st body).2.2.head? = some (Event.insertBooking st.nextId)
    ∧ (∀ k e, (createBooking env st body).2.2.get? k = some e
        → e.isPaymentCall = true → 0 < k)
    ∧ (∃ b, (createBooking env st body).1.rows = st.rows ++ [b]
        ∧ b.id = st.nextId ∧ b.status = BookingStatus.pending)
    ∧ (∀ bid, Event.paypalOrderCall bid ∈ (createBooking env st body).2.2
        → bid ∈ (createBooking env st body).1.ids)
    ∧ (∀ bid url, (createBooking env st body).2.1 = CreateResp.ok bid url
        → bid ∈ (createBooking env st body).1.ids) := by
  have hids := createBooking_ids_valid env st body hn ht
  have hmem : st.nextId ∈ (createBooking env st body).1.ids := by
    rw [hids]; exact List.mem_append_right _ (List.mem_singleton.mpr rfl)
  have hstore := createBooking_store_valid env st body hn ht
  refine ⟨?_, ?_, ?_, ?_, ?_⟩
  · rcases createBooking_trace_valid env st body hn ht with h | h <;> rw [h] <;> rfl
  · intro k e hk hp
    rcases createBooking_trace_valid env st body hn ht with h | h <;> rw [h] at hk <;>
      match k with
      | 0 =>
        simp only [List.get?, Option.some.injEq] at hk
        rw [← hk] at hp
        simp [Event.isPaymentCall] at hp
      | Nat.succ k => exact Nat.succ_pos k
  · exact ⟨mkBooking st body, by rw [hstore], rfl, rfl⟩
  · intro bid hbid
    rcases createBooking_trace_valid env st body hn ht with h | h <;> rw [h] at hbid <;>
      simp at hbid
    rw [hbid]; exact hmem
  · intro bid url hok
    unfold createBooking at hok
    simp only [hn, ht, Bool.or_self, Bool.false_eq_true, if_false] at hok
    split at hok
    · simp at hok
    · split at hok
      · simp at hok
      · simp only [CreateResp.ok.injEq] at hok
        rw [hok.1] at hmem
        exact hmem

theorem create_persists_pending_before_payment_witness :
    (optStrFalsy validBody.hotelName = false) ∧ (validBody.total.falsy = false)
    ∧ ((createBooking okEnv initStore validBody).2.2.head?
          = some (Event.insertBooking initStore.nextId)
      ∧ (∀ k e, (createBooking okEnv initStore validBody).2.2.get? k = some e
          → e.isPaymentCall = true → 0 < k)
      ∧ (∃ b, (createBooking okEnv initStore validBody).1.rows = initStore.rows ++ [b]
          ∧ b.id = initStore.nextId ∧ b.status = BookingStatus.pending)
      ∧ (∀ bid, Event.paypalOrderCall bid ∈ (createBooking okEnv initStore validBody).2.2
          → bid ∈ (createBooking okEnv initStore validBody).1.ids)
      ∧ (∀ bid url, (createBooking okEnv initStore validBody).2.1 = CreateResp.ok bid url
          → bid ∈ (createBooking okEnv initStore validBody).1.ids)) :=
  ⟨by decide, by decide,
    create_persists_pending_before_payment okEnv initStore validBody
      (by decide) (by decide)⟩

/-- C3 (counterexample): the creation request with hotelName "Grand Hotel"
and total "abc" is not rejected as a validation error: on a fresh store it
writes one booking row, contacts the payment provider, and answers the
generic 500, not a 400. -/
theorem create_nonnumeric_total_cex :
    (createBooking noTokenEnv initStore abcTotalBody).2.1
        = CreateResp.serverError "Failed to create booking"
    ∧ (createBooking noTokenEnv initStore abcTotalBody).1.rows.length = 1
    ∧ (createBooking noTokenEnv initStore abcTotalBody).2.2
        = [Event.insertBooking 1, Event.paypalAuthCall] := by
  refine ⟨?_, ?_, ?_⟩ <;> decide

/-- C3 (amended): a creation request is rejected as a 400 validation error
with no store write and no provider call exactly when `hotelName` or
`total` is JavaScript-falsy (hotelName absent or empty; total absent,
empty string, 0, or NaN). A present non-numeric string such as
total="abc" is truthy and is not rejected. -/
theorem create_validation_rejects_falsy (env : PayPalEnv) (st : Store)
    (body : CreateBody)
    (h : optStrFalsy body.hotelName = true ∨ body.total.falsy = true) :
    createBooking env st body = (st, CreateResp.badRequest "Missing required fields", []) := by
  unfold createBooking
  rcases h with h | h <;> simp [h]

theorem create_validation_rejects_falsy_witness :
    (optStrFalsy noHotelBody.hotelName = true ∨ noHotelBody.total.falsy = true)
    ∧ createBooking noTokenEnv initStore noHotelBody
        = (initStore, CreateResp.badRequest "Missing required fields", []) :=
  ⟨Or.inl (by decide),
    create_validation_rejects_falsy noTokenEnv initStore noHotelBody (Or.inl (by decide))⟩

/-- C6: for every valid creation request where the payment step fails —
the token response has no (or an empty) access token, or the order
response has no link with relation "approve" — the handler answers the
generic 500 error, never the `{bookingId, approveUrl}` success pair, and
the booking row written before the payment step is in the resulting store
with status still pending. -/
theorem create_payment_failure_stays_pending (env : PayPalEnv) (st : Store)
    (body : CreateBody) (hn : optStrFalsy body.hotelName = false)
    (ht : body.total.falsy = false)
    (hfail : optStrFalsy env.accessToken = true ∨ findApproveLink env.orderLinks = none) :
    (createBooking env st body).2.1 = CreateResp.serverError "Failed to create booking"
    ∧ (∃ b, (createBooking env st body).1.rows = st.rows ++ [b]
        ∧ b.id = st.nextId ∧ b.status = BookingStatus.pending) := by
  have hstore := createBooking_store_valid env st body hn ht
  refine ⟨?_, ⟨mkBooking st body, by rw [hstore], rfl, rfl⟩⟩
  unfold createBooking
  simp only [hn, ht, Bool.or_self, Bool.false_eq_true, if_false]
  by_cases hTok : optStrFalsy env.accessToken = true
  · simp [hTok]
  · simp only [hTok, Bool.false_eq_true, if_false]
    rcases hfail with h | h
    · exact absurd h hTok
    · simp [h]

theorem create_payment_failure_stays_pending_witness :
    (optStrFalsy validBody.hotelName = false) ∧ (validBody.total.falsy = false)
    ∧ (optStrFalsy noTokenEnv.accessToken = true
        ∨ findApproveLink noTokenEnv.orderLinks = none)
    ∧ ((createBooking noTokenEnv initStore validBody).2.1
          = CreateResp.serverError "Failed to create booking"
      ∧ (∃ b, (createBooking noTokenEnv initStore validBody).1.rows
            = initStore.rows ++ [b]
          ∧ b.id = initStore.nextId ∧ b.status = BookingStatus.pending)) :=
  ⟨by decide, by decide, Or.inl (by decide),
    create_payment_failure_stays_pending noTokenEnv initStore validBody
      (by decide) (by decide) (Or.inl (by decide))⟩

/-- C10: for every valid creation request, the stored row silently
replaces present-but-falsy optional fields by the defaults — guests absent
or 0 becomes 1, checkin/checkout absent or empty becomes "N/A" — while
truthy values are stored as given. -/
theorem create_falsy_field_coercion (env : PayPalEnv) (st : Store)
    (body : CreateBody) (hn : optStrFalsy body.hotelName = false)
    (ht : body.total.falsy = false) :
    ∃ b, (createBooking env st body).1.rows = st.rows ++ [b]
      ∧ ((body.guests = none ∨ body.guests = some (JSNum.val 0))
          → b.guests = JSNum.val 1)
      ∧ ((body.checkin = none ∨ body.checkin = some "") → b.checkin = "N/A")
      ∧ ((body.checkout = none ∨ body.checkout = some "") → b.checkout = "N/A")
      ∧ (∀ q : ℚ, q ≠ 0 → body.guests = some (JSNum.val q) → b.guests = JSNum.val q)
      ∧ (∀ s : String, s ≠ "" → body.checkin = some s → b.checkin = s)
      ∧ (∀ s : String, s ≠ "" → body.checkout = some s → b.checkout = s) := by
  refine ⟨mkBooking st body,
    by rw [createBooking_store_valid env st body hn ht], ?_, ?_, ?_, ?_, ?_, ?_⟩
  · rintro (h | h) <;> simp [mkBooking, guestsOrOne, h]
  · rintro (h | h) <;> simp [mkBooking, jsOrStr, h]
  · rintro (h | h) <;> simp [mkBooking, jsOrStr, h]
  · intro q hq h; simp [mkBooking, guestsOrOne, h, hq]
  · intro s hs h; simp [mkBooking, jsOrStr, h, hs]
  · intro s hs h; simp [mkBooking, jsOrStr, h, hs]

theorem create_falsy_field_coercion_witness :
    (optStrFalsy falsyFieldsBody.hotelName = false)
    ∧ (falsyFieldsBody.total.falsy = false)
    ∧ (∃ b, (createBooking okEnv initStore falsyFieldsBody).1.rows
          = initStore.rows ++ [b]
        ∧ ((falsyFieldsBody.guests = none ∨ falsyFieldsBody.guests = some (JSNum.val 0))
            → b.guests = JSNum.val 1)
        ∧ ((falsyFieldsBody.checkin = none ∨ falsyFieldsBody.checkin = some "")
            → b.checkin = "N/A")
        ∧ ((falsyFieldsBody.checkout = none ∨ falsyFieldsBody.checkout = some "")
            → b.checkout = "N/A")
        ∧ (∀ q : ℚ, q ≠ 0 → falsyFieldsBody.guests = some (JSNum.val q)
            → b.guests = JSNum.val q)
        ∧ (∀ s : String, s ≠ "" → falsyFieldsBody.checkin = some s → b.checkin = s)
        ∧ (∀ s : String, s ≠ "" → falsyFieldsBody.checkout = some s → b.checkout = s)) :=
  ⟨by decide, by decide,
    create_falsy_field_coercion okEnv initStore falsyFieldsBody (by decide) (by decide)⟩

theorem find?_append_some {α : Type} (p : α → Bool) (l₁ l₂ : List α) (x : α)
    (h : l₁.find? p = some x) : (l₁ ++ l₂).find? p = some x := by
  induction l₁ with
  | nil => simp [List.find?] at h
  | cons a l ih =>
    by_cases ha : p a
    · rw [List.find?_cons_of_pos _ ha] at h
      rw [List.cons_append, List.find?_cons_of_pos _ ha]
      exact h
    · rw [List.find?_cons_of_neg _ ha] at h
      rw [List.cons_append, List.find?_cons_of_neg _ ha]
      exact ih h

theorem find?_append_none {α : Type} (p : α → Bool) (l₁ l₂ : List α)
    (h : l₁.find? p = none) : (l₁ ++ l₂).find? p = l₂.find? p := by
  induction l₁ with
  | nil => rfl
  | cons a l ih =>
    by_cases ha : p a
    · rw [List.find?_cons_of_pos _ ha] at h
      exact absurd h (by simp)
    · rw [List.find?_cons_of_neg _ ha] at h
      rw [List.cons_append, List.find?_cons_of_neg _ ha]
      exact ih h

theorem find?_singleton {α : Type} (p : α → Bool) (x : α) :
    [x].find? p = if p x then some x else none := by
  by_cases h : p x <;> simp [List.find?, h]

theorem find?_map_confirmFn (bid i : ℕ) (rows : List Booking) :
    (rows.map (confirmFn bid)).find? (fun b => b.id == i)
      = (rows.find? (fun b => b.id == i)).map (confirmFn bid) := by
  induction rows with
  | nil => rfl
  | cons r rs ih =>
    simp only [List.map_cons, List.find?_cons, confirmFn_id]
    cases hri : (r.id == i) <;> simp [ih]

theorem confirmFn_status_mono (bid : ℕ) (b : Booking)
    (h : b.status = BookingStatus.confirmed) :
    (confirmFn bid b).status = BookingStatus.confirmed := by
  unfold confirmFn
  split <;> simp [h]

theorem ids_map_confirmFn (bid : ℕ) (rows : List Booking) :
    (rows.map (confirmFn bid)).map Booking.id = rows.map Booking.id := by
  rw [List.map_map]
  exact List.map_congr_left (fun b _ => confirmFn_id bid b)

theorem createBooking_store_invalid (env : PayPalEnv) (st : Store) (body : CreateBody)
    (h : ¬(optStrFalsy body.hotelName = false ∧ body.total.falsy = false)) :
    (createBooking env st body).1 = st := by
  unfold createBooking
  rcases Bool.eq_false_or_eq_true (optStrFalsy body.hotelName) with hn | hn
  · simp [hn]
  · rcases Bool.eq_false_or_eq_true body.total.falsy with ht | ht
    · simp [hn, ht]
    · exact absurd ⟨hn, ht⟩ h

theorem confirmBooking_store_cases (st : Store) (bid? : Option ℕ) :
    (confirmBooking st bid?).1 = st
    ∨ ∃ bid, (confirmBooking st bid?).1 = ⟨st.rows.map (confirmFn bid), st.nextId⟩ := by
  unfold confirmBooking
  match bid? with
  | none => exact Or.inl rfl
  | some bid =>
    by_cases hb : bid = 0
    · simp [hb]
    · simp only [hb, if_false]
      exact Or.inr ⟨bid, rfl⟩

/-- Well-formedness of a reachable store: every row id is below the next
AUTOINCREMENT id, and row ids are distinct. -/
def Store.WF (st : Store) : Prop :=
  (∀ b ∈ st.rows, b.id < st.nextId) ∧ st.ids.Nodup

theorem initStore_WF : initStore.WF :=
  ⟨by intro b hb; simp [initStore] at hb, by simp [initStore, Store.ids]⟩

theorem step_WF (st : Store) (op : Op) (h : st.WF) : (step st op).WF := by
  obtain ⟨hlt, hnd⟩ := h
  cases op with
  | create env body =>
    show ((createBooking env st body).1).WF
    by_cases hv : optStrFalsy body.hotelName = false ∧ body.total.falsy = false
    · rw [createBooking_store_valid env st body hv.1 hv.2]
      constructor
      · intro b hb
        rcases List.mem_append.mp hb with hb | hb
        · exact Nat.lt_succ_of_lt (hlt b hb)
        · rw [List.mem_singleton.mp hb]
          exact Nat.lt_succ_self _
      · show ((st.rows ++ [mkBooking st body]).map Booking.id).Nodup
        rw [List.map_append]
        refine List.nodup_append.mpr ⟨hnd, by simp, ?_⟩
        intro a ha hamem
        have ham : a = st.nextId := by
          simpa [mkBooking] using hamem
        obtain ⟨b, hb, hbid⟩ := List.mem_map.mp ha
        have hblt := hlt b hb
        rw [hbid, ham] at hblt
        exact absurd hblt (lt_irrefl _)
    · rw [createBooking_store_invalid env st body hv]
      exact ⟨hlt, hnd⟩
  | confirm bid? =>
    show ((confirmBooking st bid?).1).WF
    rcases confirmBooking_store_cases st bid? with hc | ⟨bid, hc⟩
    · rw [hc]; exact ⟨hlt, hnd⟩
    · rw [hc]
      constructor
      · intro b hb
        obtain ⟨r, hr, hrb⟩ := List.mem_map.mp hb
        rw [← hrb, confirmFn_id]
        exact hlt r hr
      · show ((st.rows.map (confirmFn bid)).map Booking.id).Nodup
        rw [ids_map_confirmFn]
        exact hnd
  | notifyEmailOp b e oc =>
    show ((notifyEmail st b e oc).1).WF
    rw [notifyEmail_store]
    exact ⟨hlt, hnd⟩
  | notifySmsOp b p oc =>
    show ((notifySms st b p oc).1).WF
    rw [notifySms_store]
    exact ⟨hlt, hnd⟩

theorem run_WF (ops : List Op) : (run ops).WF := by
  unfold run
  suffices hgen : ∀ st : Store, st.WF → (ops.foldl step st).WF from
    hgen initStore initStore_WF
  induction ops with
  | nil => intro st h; exact h
  | cons op rest ih => intro st h; exact ih (step st op) (step_WF st op h)

theorem step_confirmed_mono (st : Store) (op : Op) (i : ℕ)
    (h : st.statusOf i = some BookingStatus.confirmed) :
    (step st op).statusOf i = some BookingStatus.confirmed := by
  obtain ⟨r, hr, hrs⟩ : ∃ r, getBooking st i = some r ∧ r.status = BookingStatus.confirmed := by
    unfold Store.statusOf at h
    obtain ⟨r, hr, hrs⟩ := Option.map_eq_some'.mp h
    exact ⟨r, hr, hrs⟩
  cases op with
  | create env body =>
    show ((createBooking env st body).1).statusOf i = _
    by_cases hv : optStrFalsy body.hotelName = false ∧ body.total.falsy = false
    · rw [createBooking_store_valid env st body hv.1 hv.2]
      unfold Store.statusOf getBooking at *
      rw [find?_append_some _ _ _ r hr]
      simp [hrs]
    · rw [createBooking_store_invalid env st body hv]
      exact h
  | confirm bid? =>
    show ((confirmBooking st bid?).1).statusOf i = _
    rcases confirmBooking_store_cases st bid? with hc | ⟨bid, hc⟩
    · rw [hc]; exact h
    · rw [hc]
      unfold Store.statusOf getBooking at *
      rw [find?_map_confirmFn, hr]
      simp [confirmFn_status_mono bid r hrs]
  | notifyEmailOp b e oc =>
    show ((notifyEmail st b e oc).1).statusOf i = _
    rw [notifyEmail_store]
    exact h
  | notifySmsOp b p oc =>
    show ((notifySms st b p oc).1).statusOf i = _
    rw [notifySms_store]
    exact h

theorem step_fresh_pending (st : Store) (op : Op) (i : ℕ) (s : BookingStatus)
    (h0 : st.statusOf i = none) (h1 : (step st op).statusOf i = some s) :
    s = BookingStatus.pending := by
  have hfind : st.rows.find? (fun b => b.id == i) = none := by
    unfold Store.statusOf getBooking at h0
    exact Option.map_eq_none'.mp h0
  cases op with
  | create env body =>
    by_cases hv : optStrFalsy body.hotelName = false ∧ body.total.falsy = false
    · rw [show step st (Op.create env body) = (createBooking env st body).1 from rfl,
        createBooking_store_valid env st body hv.1 hv.2] at h1
      unfold Store.statusOf getBooking at h1
      rw [find?_append_none _ _ _ hfind, find?_singleton] at h1
      split at h1
      · have hms : (mkBooking st body).status = s := by
          simpa using h1
        rw [← hms]
        rfl
      · simp at h1
    · rw [show step st (Op.create env body) = (createBooking env st body).1 from rfl,
        createBooking_store_invalid env st body hv] at h1
      unfold Store.statusOf getBooking at h1
      rw [hfind] at h1
      simp at h1
  | confirm bid? =>
    rcases confirmBooking_store_cases st bid? with hc | ⟨bid, hc⟩
    · rw [show step st (Op.confirm bid?) = (confirmBooking st bid?).1 from rfl, hc] at h1
      unfold Store.statusOf getBooking at h1
      rw [hfind] at h1
      simp at h1
    · rw [show step st (Op.confirm bid?) = (confirmBooking st bid?).1 from rfl, hc] at h1
      unfold Store.statusOf getBooking at h1
      rw [find?_map_confirmFn, hfind] at h1
      simp at h1
  | notifyEmailOp b e oc =>
    rw [show step st (Op.notifyEmailOp b e oc) = (notifyEmail st b e oc).1 from rfl,
      notifyEmail_store] at h1
    rw [h0] at h1
    exact absurd h1 (by simp)
  | notifySmsOp b p oc =>
    rw [show step st (Op.notifySmsOp b p oc) = (notifySms st b p oc).1 from rfl,
      notifySms_store] at h1
    rw [h0] at h1
    exact absurd h1 (by simp)

/-- C4: along every request sequence against a fresh store, a booking's
status only ever moves pending → confirmed: once confirmed it stays
confirmed after any further request, a booking that appears under a fresh
id appears with status pending (never directly confirmed), and row ids in
any reachable store are distinct, so each booking is created exactly
once. -/
theorem booking_status_machine (ops : List Op) (op : Op) (i : ℕ) :
    ((run ops).statusOf i = some BookingStatus.confirmed
      → (step (run ops) op).statusOf i = some BookingStatus.confirmed)
    ∧ (∀ s, (run ops).statusOf i = none
        → (step (run ops) op).statusOf i = some s → s = BookingStatus.pending)
    ∧ (run ops).ids.Nodup :=
  ⟨step_confirmed_mono (run ops) op i,
    fun s h0 h1 => step_fresh_pending (run ops) op i s h0 h1,
    (run_WF ops).2⟩

/-- A concrete request sequence: one valid creation, then its
confirmation. -/
def demoOps : List Op := [Op.create okEnv validBody, Op.confirm (some 1)]

theorem booking_status_machine_witness :
    (run demoOps).statusOf 1 = some BookingStatus.confirmed
    ∧ (((run demoOps).statusOf 1 = some BookingStatus.confirmed
        → (step (run demoOps) (Op.confirm (some 1))).statusOf 1
            = some BookingStatus.confirmed)
      ∧ (∀ s, (run demoOps).statusOf 1 = none
          → (step (run demoOps) (Op.confirm (some 1))).statusOf 1 = some s
          → s = BookingStatus.pending)
      ∧ (run demoOps).ids.Nodup) :=
  ⟨by decide, booking_status_machine demoOps (Op.confirm (some 1)) 1⟩

/-- C7: for every upstream payload and client page ≥ 1, `listHotels`
reports as `total` the size of the full normalized set, and its `data` is
exactly the slice `[(page-1)*limit, page*limit)` of the full normalized
sequence: element `i` of the page (for `i < limit`) is element
`(page-1)*limit + i` of the full sequence, and the page length is `limit`
capped by what remains — so with at least 20 normalized records, page 2
with limit 10 returns exactly positions `[10, 20)`. -/
theorem listHotels_pagination (j : UpstreamPayload) (page limit : ℕ)
    (hp : 1 ≤ page) :
    (listHotels j page limit).total = ((j.data.getD []).map normalizeHotel).length
    ∧ (listHotels j page limit).data.length
        = min limit (((j.data.getD []).map normalizeHotel).length - (page - 1) * limit)
    ∧ (∀ i, i < limit →
        (listHotels j page limit).data[i]?
          = ((j.data.getD []).map normalizeHotel)[(page - 1) * limit + i]?)
    ∧ (page - 1) * limit + limit = page * limit := by
  refine ⟨rfl, ?_, ?_, ?_⟩
  · show (jsSlice ((j.data.getD []).map normalizeHotel)
        ((page - 1) * limit) ((page - 1) * limit + limit)).length = _
    unfold jsSlice
    rw [Nat.add_sub_cancel_left, List.length_take, List.length_drop]
  · intro i hi
    show (jsSlice ((j.data.getD []).map normalizeHotel)
        ((page - 1) * limit) ((page - 1) * limit + limit))[i]? = _
    unfold jsSlice
    rw [Nat.add_sub_cancel_left, List.getElem?_take_of_lt hi, List.getElem?_drop]
  · have h1 : page - 1 + 1 = page := Nat.sub_add_cancel hp
    calc (page - 1) * limit + limit = (page - 1 + 1) * limit := by rw [Nat.succ_mul]
      _ = page * limit := by rw [h1]

/-- A concrete upstream payload of 25 records. -/
def demoPayload : UpstreamPayload :=
  ⟨some ((List.range 25).map (fun i =>
    ⟨some (toString i), some ("Hotel " ++ toString i), some "<b>Nice</b> stay",
      some "Addr", some "Manila", some (JSNum.val 4), some (JSNum.val 9),
      some "main.jpg", some "thumb.jpg"⟩))⟩

theorem listHotels_pagination_witness :
    1 ≤ 2
    ∧ ((listHotels demoPayload 2 10).total
          = ((demoPayload.data.getD []).map normalizeHotel).length
      ∧ (listHotels demoPayload 2 10).data.length
          = min 10 (((demoPayload.data.getD []).map normalizeHotel).length - (2 - 1) * 10)
      ∧ (∀ i, i < 10 →
          (listHotels demoPayload 2 10).data[i]?
            = ((demoPayload.data.getD []).map normalizeHotel)[(2 - 1) * 10 + i]?)
      ∧ (2 - 1) * 10 + 10 = 2 * 10) :=
  ⟨by decide, listHotels_pagination demoPayload 2 10 (by decide)⟩

/-- `body` holds `sub` as a contiguous substring. -/
def strContains (body sub : String) : Prop := ∃ p s : String, body = p ++ sub ++ s

theorem strContains_left (a m s : String) : strContains (a ++ (m ++ s)) m :=
  ⟨a, s, (String.append_assoc a m s).symm⟩

theorem strContains_shift (a body m : String) (h : strContains body m) :
    strContains (a ++ body) m := by
  obtain ⟨p, s, hp⟩ := h
  refine ⟨a ++ p, s, ?_⟩
  rw [hp]
  simp only [String.append_assoc]

/-- C8: whenever the notify-by-email handler finds the addressed booking,
it issues a delivery call whose rendered html body is the template filled
from the stored row, and that body contains the stored hotel name,
checkin, checkout, guest count, and total amount verbatim. -/
theorem notify_email_body_fields (st : Store) (bid : ℕ) (email : String)
    (oc : DeliveryOutcome) (b : Booking) (h : getBooking st bid = some b) :
    ∃ call, (notifyEmail st bid email oc).2.2 = some call
      ∧ call.html = renderEmailHtml b
      ∧ strContains call.html b.hotel_name
      ∧ strContains call.html b.checkin
      ∧ strContains call.html b.checkout
      ∧ strContains call.html (jsNumToString b.guests)
      ∧ strContains call.html (jsNumToString b.total_amount) := by
  refine ⟨⟨email, "Booking Confirmed: " ++ b.hotel_name, renderEmailHtml b⟩,
    ?_, rfl, ?_, ?_, ?_, ?_, ?_⟩
  · unfold notifyEmail
    rw [h]
    cases oc <;> rfl
  all_goals
    show strContains (renderEmailHtml b) _
  all_goals
    unfold renderEmailHtml
  all_goals
    simp only [String.append_assoc]
  all_goals
    repeat
      first
      | exact strContains_left _ _ _
      | apply strContains_shift

theorem notify_email_body_fields_witness :
    getBooking oneRowStore 1 = some oneRowBooking
    ∧ (∃ call, (notifyEmail oneRowStore 1 "guest@example.com" .delivered).2.2 = some call
        ∧ call.html = renderEmailHtml oneRowBooking
        ∧ strContains call.html oneRowBooking.hotel_name
        ∧ strContains call.html oneRowBooking.checkin
        ∧ strContains call.html oneRowBooking.checkout
        ∧ strContains call.html (jsNumToString oneRowBooking.guests)
        ∧ strContains call.html (jsNumToString oneRowBooking.total_amount)) :=
  ⟨by decide,
    notify_email_body_fields oneRowStore 1 "guest@example.com" .delivered
      oneRowBooking (by decide)⟩
